import Mathlib

/-!
Shallow embedding of the BNPL installment-loan calculator.

The repository contains three revisions of the calculation hook and a
currency formatter; each revision is embedded in its own namespace:

* `BNPL.Main`  — `src/src/app/hooks/useCalculator.ts` (selectable
  `chargesMode`, tolerant down-payment validation, fixed 7.5% rate);
* `BNPL.V2`    — `src/unnamed/part_002` (fee-aware validation with an
  exact-30% epsilon branch, fixed 7.5% rate);
* `BNPL.V3`    — `src/unnamed/part_003` (strict down-payment validation,
  threshold-subtract fee policy, tiered auto interest rate);
* `BNPL.ResultCard` — `formatCurrency` from `src/unnamed/part_000`.

JavaScript numbers are modelled as rationals (`ℚ`); `Math.max` is `max`,
`Math.abs` is `|·|`.  The React hook state (`results`, `isCalculated`,
`errors`) is modelled as an explicit `HookState` record and `calculateLoan`
as a state transformer, so that "the results slot is not written on the
error path" is expressible.  Error messages are string constants; an
`ErrorSet` has one optional message per field, exactly as the TS object
literal with optional keys.
-/

namespace BNPL

/-- Error messages used by the calculator revisions (string literals from
the source). -/
def msgItemCost : String := "Item cost must be greater than 0"

def msgTenure : String := "Tenure must be greater than 0"

def msgMerchantFee : String := "Merchant fee cannot be negative"

def msgDownPaymentMain : String := "Down payment must be at least 30% of item cost"

def msgDownPaymentV2 : String := "After fees, down payment must be at least 30% of item cost"

def msgDownPaymentV3 : String := "Down payment cannot be less than 30%"

/-- TS `{ downPayment?: string, tenure?: string, itemCost?: string, merchantFee?: string }`:
at most one message per field, a missing key is `none`. -/
structure ErrorSet where
  downPayment : Option String
  tenure : Option String
  itemCost : Option String
  merchantFee : Option String
deriving DecidableEq, Repr

/-- The empty error object `{}`. -/
def noErrors : ErrorSet := ⟨none, none, none, none⟩

/-- TS `Object.keys(errors).length > 0`. -/
def hasErrors (e : ErrorSet) : Bool :=
  e.downPayment.isSome || e.tenure.isSome || e.itemCost.isSome || e.merchantFee.isSome

namespace Main

/-- TS `chargesMode: 'upfront' | 'repayment'`. -/
inductive ChargesMode where
  | upfront
  | repayment
deriving DecidableEq, Repr

/-- TS `LoanInputs` of `useCalculator.ts`. -/
structure LoanInputs where
  itemCost : ℚ
  downPayment : ℚ
  tenure : ℚ
  merchantFee : ℚ
  chargesMode : ChargesMode
deriving DecidableEq, Repr

/-- TS `LoanResults` of `useCalculator.ts`. -/
structure LoanResults where
  effectiveDownPayment : ℚ
  financedBalance : ℚ
  interestAmount : ℚ
  monthlyRepayment : ℚ
  totalRepayment : ℚ
  chargesAppliedUpfront : ℚ
  chargesAddedToRepayment : ℚ
deriving DecidableEq, Repr

/-- The hook's caller-visible state: `results`, `isCalculated`, `errors`. -/
structure HookState where
  results : LoanResults
  isCalculated : Bool
  errors : ErrorSet
deriving DecidableEq, Repr

/-- The hook's initial state (all-zero results, not calculated, no errors). -/
def initialState : HookState :=
  ⟨⟨0, 0, 0, 0, 0, 0, 0⟩, false, noErrors⟩

/-- TS `epsilon = 0.5` — treat within 50 kobo as equal. -/
def epsilon : ℚ := 0.5

/-- Fixed 7.5% per month for 1–4 months, regardless of balance and tenure. -/
def getAutoInterestRate (_financedBalance _tenure : ℚ) : ℚ := 7.5

/-- The validation block of `calculateLoan`: each rule is an independent
`if`, all violations are collected into one object. -/
def validate (i : LoanInputs) : ErrorSet :=
  ⟨if i.downPayment + epsilon < i.itemCost * 0.30 then some msgDownPaymentMain else none,
   if i.tenure ≤ 0 then some msgTenure else none,
   if i.itemCost ≤ 0 then some msgItemCost else none,
   if i.merchantFee < 0 then some msgMerchantFee else none⟩

/-- TS `percentageFee = itemCost * (merchantFee / 100)`. -/
def percentageFee (i : LoanInputs) : ℚ := i.itemCost * (i.merchantFee / 100)

/-- TS `adjustmentFee = 6000` (fixed ₦6,000). -/
def adjustmentFee : ℚ := 6000

/-- TS `totalFixedCharges = percentageFee + adjustmentFee`. -/
def totalFixedCharges (i : LoanInputs) : ℚ := percentageFee i + adjustmentFee

/-- TS `calculateLoan` of `useCalculator.ts` as a state transformer.  On a
validation failure it stores the errors, sets `isCalculated` to `false`
and returns, leaving `results` untouched; otherwise it clears the errors,
runs steps 1–7 and stores the new results with `isCalculated = true`. -/
def calculateLoan (i : LoanInputs) (s : HookState) : HookState :=
  let errs := validate i
  if hasErrors errs then
    ⟨s.results, false, errs⟩
  else
    let charges := totalFixedCharges i
    let effectiveDownPayment := i.downPayment
    let chargesAppliedUpfront : ℚ :=
      match i.chargesMode with
      | ChargesMode.upfront => charges
      | ChargesMode.repayment => 0
    let chargesAddedToRepayment : ℚ := 0
    let financedBalance :=
      max 0 ((i.itemCost - effectiveDownPayment) +
        (match i.chargesMode with
         | ChargesMode.repayment => charges
         | ChargesMode.upfront => 0))
    let interestRate := getAutoInterestRate financedBalance i.tenure
    let monthlyInterest := (interestRate / 100) * financedBalance
    let monthlyFinanceCost := financedBalance / i.tenure
    let monthlyRepayment := monthlyFinanceCost + monthlyInterest +
      chargesAddedToRepayment / i.tenure
    let totalRepayment := monthlyRepayment * i.tenure
    ⟨⟨effectiveDownPayment, financedBalance, monthlyInterest, monthlyRepayment,
      totalRepayment, chargesAppliedUpfront, chargesAddedToRepayment⟩,
     true, noErrors⟩

end Main

namespace V2

/-- TS `chargesMode: 'upfront' | 'repayment'`. -/
inductive ChargesMode where
  | upfront
  | repayment
deriving DecidableEq, Repr

/-- TS `LoanInputs` of `part_002`. -/
structure LoanInputs where
  itemCost : ℚ
  downPayment : ℚ
  tenure : ℚ
  merchantFee : ℚ
  chargesMode : ChargesMode
deriving DecidableEq, Repr

/-- TS `LoanResults` of `part_002` (same shape as the main revision). -/
structure LoanResults where
  effectiveDownPayment : ℚ
  financedBalance : ℚ
  interestAmount : ℚ
  monthlyRepayment : ℚ
  totalRepayment : ℚ
  chargesAppliedUpfront : ℚ
  chargesAddedToRepayment : ℚ
deriving DecidableEq, Repr

/-- The hook's caller-visible state. -/
structure HookState where
  results : LoanResults
  isCalculated : Bool
  errors : ErrorSet
deriving DecidableEq, Repr

/-- The hook's initial state. -/
def initialState : HookState :=
  ⟨⟨0, 0, 0, 0, 0, 0, 0⟩, false, noErrors⟩

/-- TS `epsilon = 0.5`. -/
def epsilon : ℚ := 0.5

/-- Fixed 7.5% (total) for 1–4 months. -/
def getAutoInterestRate (_financedBalance _tenure : ℚ) : ℚ := 7.5

/-- TS `thirtyPercentOfItem = itemCost * 0.30`. -/
def thirtyPercentOfItem (i : LoanInputs) : ℚ := i.itemCost * 0.30

/-- TS `isExactThirty = Math.abs(downPayment - thirtyPercentOfItem) <= epsilon`. -/
def isExactThirty (i : LoanInputs) : Bool :=
  |i.downPayment - thirtyPercentOfItem i| ≤ epsilon

/-- TS `totalFixedCharges = itemCost * (merchantFee / 100) + 6000` (also the
`totalChargesCheck` recomputed inside the validation block). -/
def totalFixedCharges (i : LoanInputs) : ℚ :=
  i.itemCost * (i.merchantFee / 100) + 6000

/-- The validation block of `part_002`: the down-payment rule is fee-aware —
it fires only when the payment is not within epsilon of exactly 30% and the
net of charges falls under 30%. -/
def validate (i : LoanInputs) : ErrorSet :=
  ⟨if !isExactThirty i ∧ i.downPayment - totalFixedCharges i < i.itemCost * 0.30
      then some msgDownPaymentV2 else none,
   if i.tenure ≤ 0 then some msgTenure else none,
   if i.itemCost ≤ 0 then some msgItemCost else none,
   if i.merchantFee < 0 then some msgMerchantFee else none⟩

/-- TS `calculateLoan` of `part_002` as a state transformer. -/
def calculateLoan (i : LoanInputs) (s : HookState) : HookState :=
  let errs := validate i
  if hasErrors errs then
    ⟨s.results, false, errs⟩
  else
    let charges := totalFixedCharges i
    let edc :=
      if isExactThirty i then
        match i.chargesMode with
        | ChargesMode.upfront => (thirtyPercentOfItem i, charges, (0 : ℚ))
        | ChargesMode.repayment => (thirtyPercentOfItem i, 0, charges)
      else
        (i.downPayment - charges, min charges i.downPayment, 0)
    let effectiveDownPayment := edc.1
    let chargesAppliedUpfront := edc.2.1
    let chargesAddedToRepayment := edc.2.2
    let financedBalance := max 0 (i.itemCost - effectiveDownPayment)
    let interestRate := getAutoInterestRate financedBalance i.tenure
    let interestAmount := (interestRate / 100) * financedBalance
    let monthlyFinanceCost := financedBalance / i.tenure
    let monthlyRepayment := monthlyFinanceCost + interestAmount +
      chargesAddedToRepayment / i.tenure
    let totalRepayment := monthlyRepayment * i.tenure
    ⟨⟨effectiveDownPayment, financedBalance, interestAmount, monthlyRepayment,
      totalRepayment, chargesAppliedUpfront, chargesAddedToRepayment⟩,
     true, noErrors⟩

end V2

namespace V3

/-- TS `LoanInputs` of `part_003` (no charges mode). -/
structure LoanInputs where
  itemCost : ℚ
  downPayment : ℚ
  tenure : ℚ
  merchantFee : ℚ
deriving DecidableEq, Repr

/-- TS `LoanResults` of `part_003` (five fields). -/
structure LoanResults where
  effectiveDownPayment : ℚ
  financedBalance : ℚ
  interestAmount : ℚ
  monthlyRepayment : ℚ
  totalRepayment : ℚ
deriving DecidableEq, Repr

/-- The hook's caller-visible state. -/
structure HookState where
  results : LoanResults
  isCalculated : Bool
  errors : ErrorSet
deriving DecidableEq, Repr

/-- The hook's initial state. -/
def initialState : HookState :=
  ⟨⟨0, 0, 0, 0, 0⟩, false, noErrors⟩

/-- TS `normalizeTenure`: map tenure into the buckets 3, 4, 6, 9, 12. -/
def normalizeTenure (tenure : ℚ) : ℚ :=
  if tenure ≤ 4 then (if tenure ≤ 3 then 3 else 4)
  else if tenure ≤ 6 then 6
  else if tenure ≤ 9 then 9
  else 12

/-- Balance tiers `A | B | C | D`. -/
inductive Tier where
  | A
  | B
  | C
  | D
deriving DecidableEq, Repr

/-- The tier-selection chain: `fb >= 1_000_000 → D`, `>= 500_000 → C`,
`>= 200_000 → B`, else `A`. -/
def tierOf (fb : ℚ) : Tier :=
  if fb ≥ 1000000 then Tier.D
  else if fb ≥ 500000 then Tier.C
  else if fb ≥ 200000 then Tier.B
  else Tier.A

/-- The `rates` table of `part_003`, indexed by tier and tenure bucket.
The bucket argument is one of 3, 4, 6, 9, 12 (the range of
`normalizeTenure`); the final branch of each chain is the 12 column. -/
def rateTable (tier : Tier) (t : ℚ) : ℚ :=
  match tier with
  | Tier.A => if t = 3 then 12 else if t = 4 then 12 else if t = 6 then 11
      else if t = 9 then 10 else 9.5
  | Tier.B => if t = 3 then 11.5 else if t = 4 then 11.5 else if t = 6 then 10.5
      else if t = 9 then 9.5 else 9
  | Tier.C => if t = 3 then 11 else if t = 4 then 11 else if t = 6 then 10
      else if t = 9 then 9 else 8.5
  | Tier.D => if t = 3 then 10 else if t = 4 then 10 else if t = 6 then 9
      else if t = 9 then 8 else 7.5

/-- TS `getAutoInterestRate` of `part_003`: tiered lookup by financed balance
and normalized tenure. -/
def getAutoInterestRate (financedBalance tenure : ℚ) : ℚ :=
  rateTable (tierOf financedBalance) (normalizeTenure tenure)

/-- TS `thirtyPercentOfItem = itemCost * 0.30`. -/
def thirtyPercentOfItem (i : LoanInputs) : ℚ := i.itemCost * 0.30

/-- TS `totalFixedCharges = itemCost * (merchantFee / 100) + 6000`. -/
def totalFixedCharges (i : LoanInputs) : ℚ :=
  i.itemCost * (i.merchantFee / 100) + 6000

/-- The validation block of `part_003`: strict down-payment rule. -/
def validate (i : LoanInputs) : ErrorSet :=
  ⟨if i.downPayment < thirtyPercentOfItem i then some msgDownPaymentV3 else none,
   if i.tenure ≤ 0 then some msgTenure else none,
   if i.itemCost ≤ 0 then some msgItemCost else none,
   if i.merchantFee < 0 then some msgMerchantFee else none⟩

/-- TS `calculateLoan` of `part_003` as a state transformer: threshold-subtract
policy (above 30% subtract the charges, exactly 30% add them, below use
as-is), clamped balance, tiered rate. -/
def calculateLoan (i : LoanInputs) (s : HookState) : HookState :=
  let errs := validate i
  if hasErrors errs then
    ⟨s.results, false, errs⟩
  else
    let charges := totalFixedCharges i
    let effectiveDownPayment :=
      if i.downPayment > thirtyPercentOfItem i then i.downPayment - charges
      else if i.downPayment = thirtyPercentOfItem i then i.downPayment + charges
      else i.downPayment
    let financedBalance := max 0 (i.itemCost - effectiveDownPayment)
    let interestRate := getAutoInterestRate financedBalance i.tenure
    let interestAmount := (interestRate / 100) * financedBalance
    let monthlyFinanceCost := financedBalance / i.tenure
    let monthlyRepayment := monthlyFinanceCost + interestAmount
    let totalRepayment := monthlyRepayment * i.tenure
    ⟨⟨effectiveDownPayment, financedBalance, interestAmount, monthlyRepayment,
      totalRepayment⟩,
     true, noErrors⟩

end V3

namespace ResultCard

/-- A JavaScript number as seen by `formatCurrency`: finite values are
rationals, plus the three non-finite values `NaN`, `Infinity`,
`-Infinity`. -/
inductive JSNumber where
  | nan
  | posInf
  | negInf
  | finite (val : ℚ)
deriving DecidableEq, Repr

/-- TS `isFinite(amount)`. -/
def isFinite : JSNumber → Bool
  | JSNumber.finite _ => true
  | _ => false

/-- Decimal digits after the point of the fractional part `r` (with
`0 ≤ r < 1`), most significant first, stopping at remainder 0 or after
`fuel` digits.  Models the digits of `toString` after the `'.'`. -/
def fracDigits : Nat → ℚ → List Char
  | 0, _ => []
  | fuel + 1, r =>
    if r = 0 then []
    else
      let r10 := r * 10
      Nat.digitChar r10.floor.toNat :: fracDigits fuel (r10 - r10.floor)

/-- Insert a comma after every run of three characters of a reversed digit
list: models the regex `\B(?=(\d{3})+(?!\d))` replacement on the integer
part. -/
def commaRev : List Char → Nat → List Char
  | [], _ => []
  | c :: rest, k =>
    if k = 3 then Char.ofNat 44 :: c :: commaRev rest 1
    else c :: commaRev rest (k + 1)

/-- The integer part of `toString` with grouped thousands: `withCommas`. -/
def withCommas (n : Nat) : String :=
  String.mk ((commaRev (Nat.toDigits 10 n).reverse 0).reverse)

/-- The zero-amount display returned for non-finite inputs. -/
def zeroDisplay : String := "₦0"

/-- TS `formatCurrency` of `ResultCard.tsx`: non-finite input gives the
zero display; otherwise the sign is split off, the absolute value is
rendered with a grouped integer part and the fractional digits (if any)
after a dot, and the naira sign is prefixed. -/
def formatCurrency (amount : JSNumber) : String :=
  match amount with
  | JSNumber.finite v =>
    let negative := v < 0
    let a := |v|
    let intPart := withCommas a.floor.toNat
    let fracPart := fracDigits 64 (a - a.floor)
    let formatted :=
      if fracPart.isEmpty then intPart
      else intPart ++ "." ++ String.mk fracPart
    (if negative then "-" else "") ++ "₦" ++ formatted
  | _ => zeroDisplay

end ResultCard

/-- Modelled from the spec: the tenure bucketing exactly as claim C5 words
it — `tenure <= 3 → 3`; `tenure == 4 → 4`; `tenure in (4,6] → 6`;
`tenure in (6,9] → 9`; `tenure > 9 → 12`. -/
def claimTenureBucket (t : ℚ) : ℚ :=
  if t ≤ 3 then 3
  else if t = 4 then 4
  else if 4 < t ∧ t ≤ 6 then 6
  else if 6 < t ∧ t ≤ 9 then 9
  else 12

/-- Modelled from the spec: the balance tiering exactly as claim C5 words
it — `>= 1,000,000 → D`; `>= 500,000 → C`; `>= 200,000 → B`; else `A`. -/
def claimBalanceTier (fb : ℚ) : V3.Tier :=
  if fb ≥ 1000000 then V3.Tier.D
  else if fb ≥ 500000 then V3.Tier.C
  else if fb ≥ 200000 then V3.Tier.B
  else V3.Tier.A

/-- Validation of the main revision collects no error exactly when none of
its four independent rules fires. -/
theorem main_noError_iff (i : Main.LoanInputs) :
    hasErrors (Main.validate i) = false ↔
      ¬(i.downPayment + Main.epsilon < i.itemCost * 0.30) ∧ ¬(i.tenure ≤ 0) ∧
      ¬(i.itemCost ≤ 0) ∧ ¬(i.merchantFee < 0) := by
  unfold hasErrors Main.validate
  dsimp only
  split_ifs <;> simp_all

/-- Validation of the `part_002` revision collects no error exactly when
none of its four independent rules fires. -/
theorem v2_noError_iff (i : V2.LoanInputs) :
    hasErrors (V2.validate i) = false ↔
      ¬((!V2.isExactThirty i) ∧ i.downPayment - V2.totalFixedCharges i < i.itemCost * 0.30) ∧
      ¬(i.tenure ≤ 0) ∧ ¬(i.itemCost ≤ 0) ∧ ¬(i.merchantFee < 0) := by
  unfold hasErrors V2.validate
  dsimp only
  split_ifs <;> simp_all

/-- Validation of the `part_003` revision collects no error exactly when
none of its four independent rules fires. -/
theorem v3_noError_iff (i : V3.LoanInputs) :
    hasErrors (V3.validate i) = false ↔
      ¬(i.downPayment < V3.thirtyPercentOfItem i) ∧ ¬(i.tenure ≤ 0) ∧
      ¬(i.itemCost ≤ 0) ∧ ¬(i.merchantFee < 0) := by
  unfold hasErrors V3.validate
  dsimp only
  split_ifs <;> simp_all

/-- On natural tenures the code's `normalizeTenure` agrees with the
bucketing exactly as the spec words it. -/
theorem tenure_bucket_agrees (n : ℕ) :
    V3.normalizeTenure (n : ℚ) = claimTenureBucket (n : ℚ) := by
  rcases le_or_lt n 9 with h9 | h9
  · interval_cases n <;> norm_num [V3.normalizeTenure, claimTenureBucket]
  · have ht : (9 : ℚ) < (n : ℚ) := by exact_mod_cast h9
    have c1 : ¬((n : ℚ) ≤ 3) := by linarith
    have c2 : ¬((n : ℚ) ≤ 4) := by linarith
    have c3 : ¬((n : ℚ) ≤ 6) := by linarith
    have c4 : ¬((n : ℚ) ≤ 9) := by linarith
    have c5 : ¬((n : ℚ) = 4) := by intro hh; rw [hh] at ht; norm_num at ht
    simp [V3.normalizeTenure, claimTenureBucket, c1, c2, c3, c4, c5]

/-- The code's tier selection agrees with the tiering exactly as the spec
words it. -/
theorem balance_tier_agrees (fb : ℚ) : V3.tierOf fb = claimBalanceTier fb := rfl

/-- C1, counterexample: the input `itemCost = 100000`, `downPayment = 31000`,
`tenure = 3`, `merchantFee = 0` satisfies every hypothesis of the claim
(`itemCost > 0`, `downPayment ≥ 0.30 * itemCost`, `tenure ∈ [1,12]`,
`merchantFee ≥ 0`), yet the `part_002` revision of `calculateLoan` — one of
the entry points the claim covers — rejects it: `isCalculated` is set to
`false` and a non-empty error set is returned (its fee-aware rule demands
`downPayment - totalCharges ≥ 0.30 * itemCost` away from the exact-30%
boundary). -/
theorem C1_counterexample :
    (V2.calculateLoan ⟨100000, 31000, 3, 0, V2.ChargesMode.upfront⟩
        V2.initialState).isCalculated = false ∧
    hasErrors (V2.calculateLoan ⟨100000, 31000, 3, 0, V2.ChargesMode.upfront⟩
        V2.initialState).errors = true := by
  refine ⟨?_, ?_⟩ <;>
    norm_num [V2.calculateLoan, V2.validate, V2.totalFixedCharges, V2.thirtyPercentOfItem,
      V2.isExactThirty, V2.epsilon, hasErrors]

/-- C1, amended: for `itemCost > 0`, `downPayment ≥ 0.30 * itemCost`,
`tenure ∈ [1,12]`, `merchantFee ≥ 0`, the main revision of `calculateLoan`
always succeeds (`isCalculated = true`, empty error set,
`financedBalance ≥ 0`); the `part_002` revision succeeds under the
additional assumption that the down payment is within epsilon of exactly
30% or covers 30% even net of the total charges. -/
theorem C1_amended_guarantee :
    (∀ (i : Main.LoanInputs) (s : Main.HookState),
        0 < i.itemCost → i.itemCost * 0.30 ≤ i.downPayment →
        1 ≤ i.tenure → i.tenure ≤ 12 → 0 ≤ i.merchantFee →
        (Main.calculateLoan i s).isCalculated = true ∧
        (Main.calculateLoan i s).errors = noErrors ∧
        0 ≤ (Main.calculateLoan i s).results.financedBalance) ∧
    (∀ (i : V2.LoanInputs) (s : V2.HookState),
        0 < i.itemCost → i.itemCost * 0.30 ≤ i.downPayment →
        1 ≤ i.tenure → i.tenure ≤ 12 → 0 ≤ i.merchantFee →
        (V2.isExactThirty i = true ∨
          i.itemCost * 0.30 ≤ i.downPayment - V2.totalFixedCharges i) →
        (V2.calculateLoan i s).isCalculated = true ∧
        (V2.calculateLoan i s).errors = noErrors ∧
        0 ≤ (V2.calculateLoan i s).results.financedBalance) := by
  constructor
  · intro i s hic hdp ht1 _ hmf
    have he : (0 : ℚ) ≤ Main.epsilon := by norm_num [Main.epsilon]
    have hv : hasErrors (Main.validate i) = false := by
      rw [main_noError_iff]
      refine ⟨by push_neg; linarith, by push_neg; linarith,
        by push_neg; linarith, by push_neg; linarith⟩
    refine ⟨by simp [Main.calculateLoan, hv], by simp [Main.calculateLoan, hv], ?_⟩
    simp only [Main.calculateLoan, hv, Bool.false_eq_true, if_false]
    exact le_max_left 0 _
  · intro i s hic hdp ht1 _ hmf hdisj
    have hv : hasErrors (V2.validate i) = false := by
      rw [v2_noError_iff]
      refine ⟨?_, by push_neg; linarith, by push_neg; linarith, by push_neg; linarith⟩
      rcases hdisj with hex | hge
      · simp [hex]
      · rintro ⟨-, hlt⟩; linarith
    refine ⟨by simp [V2.calculateLoan, hv], by simp [V2.calculateLoan, hv], ?_⟩
    simp only [V2.calculateLoan, hv, Bool.false_eq_true, if_false]
    exact le_max_left 0 _

/-- C1, witness: the amended guarantee instantiated at
`itemCost = 100000`, `downPayment = 30000`, `tenure = 3`,
`merchantFee = 0` on the main revision. -/
theorem C1_amended_guarantee_witness :
    (Main.calculateLoan ⟨100000, 30000, 3, 0, Main.ChargesMode.upfront⟩
        Main.initialState).isCalculated = true ∧
    (Main.calculateLoan ⟨100000, 30000, 3, 0, Main.ChargesMode.upfront⟩
        Main.initialState).errors = noErrors ∧
    0 ≤ (Main.calculateLoan ⟨100000, 30000, 3, 0, Main.ChargesMode.upfront⟩
        Main.initialState).results.financedBalance :=
  C1_amended_guarantee.1 ⟨100000, 30000, 3, 0, Main.ChargesMode.upfront⟩ Main.initialState
    (by norm_num) (by norm_num) (by norm_num) (by norm_num) (by norm_num)

/-- C2: in every revision, whenever validation passes (so the calculation
runs), the `financedBalance` field of the produced result is nonnegative —
it is clamped with `max 0`. -/
theorem C2_financedBalance_nonneg :
    (∀ (i : Main.LoanInputs) (s : Main.HookState),
        hasErrors (Main.validate i) = false →
        0 ≤ (Main.calculateLoan i s).results.financedBalance) ∧
    (∀ (i : V2.LoanInputs) (s : V2.HookState),
        hasErrors (V2.validate i) = false →
        0 ≤ (V2.calculateLoan i s).results.financedBalance) ∧
    (∀ (i : V3.LoanInputs) (s : V3.HookState),
        hasErrors (V3.validate i) = false →
        0 ≤ (V3.calculateLoan i s).results.financedBalance) := by
  refine ⟨?_, ?_, ?_⟩
  · intro i s h
    simp only [Main.calculateLoan, h, Bool.false_eq_true, if_false]
    exact le_max_left 0 _
  · intro i s h
    simp only [V2.calculateLoan, h, Bool.false_eq_true, if_false]
    exact le_max_left 0 _
  · intro i s h
    simp only [V3.calculateLoan, h, Bool.false_eq_true, if_false]
    exact le_max_left 0 _

/-- C2, witness: the invariant instantiated on the main revision at a
concrete valid input. -/
theorem C2_witness :
    0 ≤ (Main.calculateLoan ⟨100000, 30000, 3, 0, Main.ChargesMode.upfront⟩
        Main.initialState).results.financedBalance :=
  C2_financedBalance_nonneg.1 ⟨100000, 30000, 3, 0, Main.ChargesMode.upfront⟩ Main.initialState
    (by norm_num [hasErrors, Main.validate, Main.epsilon])

/-- C3: in every revision, if any validation rule fires then the invocation
stores exactly the collected error set, sets `isCalculated` to `false`, and
leaves the results slot untouched (no charge/balance/interest/repayment
computation is performed); and an invocation that ends with
`isCalculated = true` always ends with an empty error set, so a result and
a non-empty error set never coexist. -/
theorem C3_error_exclusivity :
    (∀ (i : Main.LoanInputs) (s : Main.HookState),
        (hasErrors (Main.validate i) = true →
          Main.calculateLoan i s = ⟨s.results, false, Main.validate i⟩) ∧
        ((Main.calculateLoan i s).isCalculated = true →
          (Main.calculateLoan i s).errors = noErrors)) ∧
    (∀ (i : V2.LoanInputs) (s : V2.HookState),
        (hasErrors (V2.validate i) = true →
          V2.calculateLoan i s = ⟨s.results, false, V2.validate i⟩) ∧
        ((V2.calculateLoan i s).isCalculated = true →
          (V2.calculateLoan i s).errors = noErrors)) ∧
    (∀ (i : V3.LoanInputs) (s : V3.HookState),
        (hasErrors (V3.validate i) = true →
          V3.calculateLoan i s = ⟨s.results, false, V3.validate i⟩) ∧
        ((V3.calculateLoan i s).isCalculated = true →
          (V3.calculateLoan i s).errors = noErrors)) := by
  refine ⟨?_, ?_, ?_⟩ <;> intro i s <;> constructor
  · intro h; simp [Main.calculateLoan, h]
  · intro h
    cases hv : hasErrors (Main.validate i) with
    | false => simp [Main.calculateLoan, hv]
    | true => rw [Main.calculateLoan] at h; simp [hv] at h
  · intro h; simp [V2.calculateLoan, h]
  · intro h
    cases hv : hasErrors (V2.validate i) with
    | false => simp [V2.calculateLoan, hv]
    | true => rw [V2.calculateLoan] at h; simp [hv] at h
  · intro h; simp [V3.calculateLoan, h]
  · intro h
    cases hv : hasErrors (V3.validate i) with
    | false => simp [V3.calculateLoan, hv]
    | true => rw [V3.calculateLoan] at h; simp [hv] at h

/-- C3, witness: the error-path behaviour instantiated on the main
revision at an input violating every rule. -/
theorem C3_witness :
    Main.calculateLoan ⟨-5, 0, 0, -1, Main.ChargesMode.upfront⟩ Main.initialState =
      ⟨Main.initialState.results, false,
        Main.validate ⟨-5, 0, 0, -1, Main.ChargesMode.upfront⟩⟩ :=
  (C3_error_exclusivity.1 ⟨-5, 0, 0, -1, Main.ChargesMode.upfront⟩ Main.initialState).1
    (by norm_num [hasErrors, Main.validate, Main.epsilon])

/-- C4: in every revision, the collected error set has an `itemCost` entry
exactly when `itemCost ≤ 0`, a `tenure` entry exactly when `tenure ≤ 0`,
and a `merchantFee` entry exactly when `merchantFee < 0` — each rule
depends only on its own field, so simultaneous violations are all
collected without short-circuiting. -/
theorem C4_field_rules :
    (∀ i : Main.LoanInputs,
        ((Main.validate i).itemCost.isSome = true ↔ i.itemCost ≤ 0) ∧
        ((Main.validate i).tenure.isSome = true ↔ i.tenure ≤ 0) ∧
        ((Main.validate i).merchantFee.isSome = true ↔ i.merchantFee < 0)) ∧
    (∀ i : V2.LoanInputs,
        ((V2.validate i).itemCost.isSome = true ↔ i.itemCost ≤ 0) ∧
        ((V2.validate i).tenure.isSome = true ↔ i.tenure ≤ 0) ∧
        ((V2.validate i).merchantFee.isSome = true ↔ i.merchantFee < 0)) ∧
    (∀ i : V3.LoanInputs,
        ((V3.validate i).itemCost.isSome = true ↔ i.itemCost ≤ 0) ∧
        ((V3.validate i).tenure.isSome = true ↔ i.tenure ≤ 0) ∧
        ((V3.validate i).merchantFee.isSome = true ↔ i.merchantFee < 0)) := by
  refine ⟨?_, ?_, ?_⟩ <;> intro i <;>
    refine ⟨?_, ?_, ?_⟩ <;>
    simp only [Main.validate, V2.validate, V3.validate] <;>
    split_ifs with h <;> simp [h]

/-- C5: in the tiered-auto-rate revision, for every financed balance and
every natural tenure at least 1, `getAutoInterestRate` returns the table
rate at the tier and tenure bucket exactly as the spec words them; in
particular a balance of 600000 with tenure 6 resolves tier C, bucket 6,
rate 10 percent, and the interest formula gives 60000. -/
theorem C5_tiered_rate :
    (∀ (fb : ℚ) (n : ℕ), 1 ≤ n →
        V3.getAutoInterestRate fb (n : ℚ) =
          V3.rateTable (claimBalanceTier fb) (claimTenureBucket (n : ℚ))) ∧
    V3.getAutoInterestRate 600000 6 = 10 ∧
    V3.getAutoInterestRate 600000 6 / 100 * 600000 = 60000 := by
  refine ⟨?_, ?_, ?_⟩
  · intro fb n _
    unfold V3.getAutoInterestRate
    rw [tenure_bucket_agrees, balance_tier_agrees]
  · norm_num [V3.getAutoInterestRate, V3.rateTable, V3.tierOf, V3.normalizeTenure]
  · norm_num [V3.getAutoInterestRate, V3.rateTable, V3.tierOf, V3.normalizeTenure]

/-- C5, witness: the tiered lookup instantiated at balance 250000 (tier B)
and tenure 7 (bucket 9). -/
theorem C5_tiered_rate_witness :
    V3.getAutoInterestRate 250000 ((7 : ℕ) : ℚ) =
      V3.rateTable (claimBalanceTier 250000) (claimTenureBucket ((7 : ℕ) : ℚ)) :=
  C5_tiered_rate.1 250000 7 (by norm_num)

/-- C6: under the threshold-subtract policy of `part_003`, whose exact-30%
branch adds the charges, the input `itemCost = 100000`,
`downPayment = 30000`, `tenure = 3`, `merchantFee = 0` yields
`totalFixedCharges = 6000`, `effectiveDownPayment = 36000`, and
`financedBalance = 64000`. -/
theorem C6_fixed_rate_scenario :
    V3.totalFixedCharges ⟨100000, 30000, 3, 0⟩ = 6000 ∧
    (V3.calculateLoan ⟨100000, 30000, 3, 0⟩
        V3.initialState).results.effectiveDownPayment = 36000 ∧
    (V3.calculateLoan ⟨100000, 30000, 3, 0⟩
        V3.initialState).results.financedBalance = 64000 ∧
    (V3.calculateLoan ⟨100000, 30000, 3, 0⟩ V3.initialState).isCalculated = true := by
  refine ⟨?_, ?_, ?_, ?_⟩ <;>
    norm_num [V3.calculateLoan, V3.validate, V3.totalFixedCharges, V3.thirtyPercentOfItem,
      hasErrors]

/-- C7: a down payment within epsilon = 0.5 of exactly `0.30 * itemCost`
raises no down-payment error under the tolerant rule of the main revision
nor under the fee-aware rule of `part_002`; and in `part_002` the
computation routes through the exact-30% branch — the effective down
payment is pinned to `0.30 * itemCost` and the charges go upfront or into
the repayment according to the mode — rather than through the
above-threshold branch that subtracts the charges. -/
theorem C7_exact_thirty_boundary :
    (∀ i : Main.LoanInputs,
        |i.downPayment - i.itemCost * 0.30| ≤ Main.epsilon →
        (Main.validate i).downPayment = none) ∧
    (∀ (i : V2.LoanInputs) (s : V2.HookState),
        |i.downPayment - V2.thirtyPercentOfItem i| ≤ V2.epsilon →
        (V2.validate i).downPayment = none ∧
        (hasErrors (V2.validate i) = false →
          (V2.calculateLoan i s).results.effectiveDownPayment = V2.thirtyPercentOfItem i ∧
          (i.chargesMode = V2.ChargesMode.upfront →
            (V2.calculateLoan i s).results.chargesAppliedUpfront = V2.totalFixedCharges i ∧
            (V2.calculateLoan i s).results.chargesAddedToRepayment = 0) ∧
          (i.chargesMode = V2.ChargesMode.repayment →
            (V2.calculateLoan i s).results.chargesAppliedUpfront = 0 ∧
            (V2.calculateLoan i s).results.chargesAddedToRepayment = V2.totalFixedCharges i))) := by
  constructor
  · intro i h
    rw [abs_le] at h
    simp only [Main.validate]
    rw [if_neg]
    push_neg
    linarith [h.1]
  · intro i s h
    have hex : V2.isExactThirty i = true := by
      simp only [V2.isExactThirty, decide_eq_true_eq]
      exact h
    refine ⟨by simp [V2.validate, hex], ?_⟩
    intro hv
    refine ⟨?_, ?_, ?_⟩
    · simp only [V2.calculateLoan, hv, Bool.false_eq_true, if_false, hex, if_true]
      cases hm : i.chargesMode <;> simp
    · intro hm; simp [V2.calculateLoan, hv, hex, hm]
    · intro hm; simp [V2.calculateLoan, hv, hex, hm]

/-- C7, witness: the boundary behaviour instantiated in `part_002` at a
down payment exactly 30% of a 100000 item. -/
theorem C7_witness :
    (V2.validate ⟨100000, 30000, 3, 0, V2.ChargesMode.upfront⟩).downPayment = none ∧
    (V2.calculateLoan ⟨100000, 30000, 3, 0, V2.ChargesMode.upfront⟩
        V2.initialState).results.effectiveDownPayment =
      V2.thirtyPercentOfItem ⟨100000, 30000, 3, 0, V2.ChargesMode.upfront⟩ :=
  ⟨(C7_exact_thirty_boundary.2 ⟨100000, 30000, 3, 0, V2.ChargesMode.upfront⟩ V2.initialState
      (by norm_num [V2.thirtyPercentOfItem, V2.epsilon])).1,
   ((C7_exact_thirty_boundary.2 ⟨100000, 30000, 3, 0, V2.ChargesMode.upfront⟩ V2.initialState
      (by norm_num [V2.thirtyPercentOfItem, V2.epsilon])).2
      (by norm_num [hasErrors, V2.validate, V2.isExactThirty, V2.thirtyPercentOfItem,
        V2.epsilon, V2.totalFixedCharges])).1⟩

/-- C8: in every revision, on every input that passes validation, the
monthly repayment equals the financed balance divided by the tenure plus
the interest amount plus (where the field exists) the spread charges
divided by the tenure, and the total repayment is exactly the monthly
repayment times the tenure — the down payment is not added into it. -/
theorem C8_repayment_composition :
    (∀ (i : Main.LoanInputs) (s : Main.HookState), hasErrors (Main.validate i) = false →
        (Main.calculateLoan i s).results.monthlyRepayment =
          (Main.calculateLoan i s).results.financedBalance / i.tenure +
            (Main.calculateLoan i s).results.interestAmount +
            (Main.calculateLoan i s).results.chargesAddedToRepayment / i.tenure ∧
        (Main.calculateLoan i s).results.totalRepayment =
          (Main.calculateLoan i s).results.monthlyRepayment * i.tenure) ∧
    (∀ (i : V2.LoanInputs) (s : V2.HookState), hasErrors (V2.validate i) = false →
        (V2.calculateLoan i s).results.monthlyRepayment =
          (V2.calculateLoan i s).results.financedBalance / i.tenure +
            (V2.calculateLoan i s).results.interestAmount +
            (V2.calculateLoan i s).results.chargesAddedToRepayment / i.tenure ∧
        (V2.calculateLoan i s).results.totalRepayment =
          (V2.calculateLoan i s).results.monthlyRepayment * i.tenure) ∧
    (∀ (i : V3.LoanInputs) (s : V3.HookState), hasErrors (V3.validate i) = false →
        (V3.calculateLoan i s).results.monthlyRepayment =
          (V3.calculateLoan i s).results.financedBalance / i.tenure +
            (V3.calculateLoan i s).results.interestAmount ∧
        (V3.calculateLoan i s).results.totalRepayment =
          (V3.calculateLoan i s).results.monthlyRepayment * i.tenure) := by
  refine ⟨?_, ?_, ?_⟩ <;> intro i s h <;>
    refine ⟨?_, ?_⟩ <;>
    simp [Main.calculateLoan, V2.calculateLoan, V3.calculateLoan, h]

/-- C8, witness: the composition instantiated on `part_003` at a concrete
valid input (tenure 3). -/
theorem C8_witness :
    (V3.calculateLoan ⟨100000, 30000, 3, 0⟩ V3.initialState).results.monthlyRepayment =
      (V3.calculateLoan ⟨100000, 30000, 3, 0⟩ V3.initialState).results.financedBalance / (3 : ℚ) +
        (V3.calculateLoan ⟨100000, 30000, 3, 0⟩ V3.initialState).results.interestAmount :=
  ((C8_repayment_composition.2.2 ⟨100000, 30000, 3, 0⟩ V3.initialState
      (by norm_num [hasErrors, V3.validate, V3.thirtyPercentOfItem])).1 : _)

/-- C10: in the selectable charges-mode revision, on every input that
passes validation and in both modes, the effective down payment is the raw
down payment unchanged and `chargesAddedToRepayment` is 0; the charges act
only through `chargesAppliedUpfront` in upfront mode, or through
capitalization of the total fixed charges into the financed balance in
repayment mode — never through the spread-into-repayment term. -/
theorem C10_charges_mode_invariant :
    ∀ (i : Main.LoanInputs) (s : Main.HookState), hasErrors (Main.validate i) = false →
      (Main.calculateLoan i s).results.effectiveDownPayment = i.downPayment ∧
      (Main.calculateLoan i s).results.chargesAddedToRepayment = 0 ∧
      (i.chargesMode = Main.ChargesMode.upfront →
        (Main.calculateLoan i s).results.chargesAppliedUpfront = Main.totalFixedCharges i ∧
        (Main.calculateLoan i s).results.financedBalance =
          max 0 (i.itemCost - i.downPayment)) ∧
      (i.chargesMode = Main.ChargesMode.repayment →
        (Main.calculateLoan i s).results.chargesAppliedUpfront = 0 ∧
        (Main.calculateLoan i s).results.financedBalance =
          max 0 (i.itemCost - i.downPayment + Main.totalFixedCharges i)) := by
  intro i s h
  refine ⟨by simp [Main.calculateLoan, h], by simp [Main.calculateLoan, h], ?_, ?_⟩ <;>
    intro hm <;> refine ⟨?_, ?_⟩ <;> simp [Main.calculateLoan, h, hm]

/-- C10, witness: the invariant instantiated at a concrete valid input in
upfront mode. -/
theorem C10_witness :
    (Main.calculateLoan ⟨100000, 30000, 3, 0, Main.ChargesMode.upfront⟩
        Main.initialState).results.effectiveDownPayment = (30000 : ℚ) :=
  (C10_charges_mode_invariant ⟨100000, 30000, 3, 0, Main.ChargesMode.upfront⟩ Main.initialState
      (by norm_num [hasErrors, Main.validate, Main.epsilon])).1

/-- C9: the currency formatter is a total function — every input, finite
or not, is mapped to a string, with no exceptional path — and every
non-finite input (NaN, +Infinity, -Infinity) is mapped to the zero-amount
display, which is the string "₦0". -/
theorem C9_formatCurrency_total :
    ResultCard.formatCurrency ResultCard.JSNumber.nan = ResultCard.zeroDisplay ∧
    ResultCard.formatCurrency ResultCard.JSNumber.posInf = ResultCard.zeroDisplay ∧
    ResultCard.formatCurrency ResultCard.JSNumber.negInf = ResultCard.zeroDisplay ∧
    ResultCard.zeroDisplay = "₦0" ∧
    ∀ x : ResultCard.JSNumber, ∃ s : String, ResultCard.formatCurrency x = s :=
  ⟨rfl, rfl, rfl, rfl, fun x => ⟨ResultCard.formatCurrency x, rfl⟩⟩

end BNPL
